import Mathlib

/-!
Verification of the Ask Oromia question-and-answer bot (src/bot.js).

The development shallowly embeds the bot's persistent data model and the
database helper functions plus callback handlers that the claims are about.
MongoDB collections are embedded as Lean lists in insertion order:
findOne returns the first match, updateOne rewrites the first match,
deleteOne removes the first match, insertOne appends.  JavaScript strings
are embedded as lists of characters.  The floating-point comparison
capitalRatio > 0.7 is embedded as the exact rational comparison
10 * capitals > 7 * length, which agrees with the double-precision
computation for all text lengths reaching that rule (the gap between
capitals/length and 7/10, when nonzero, is at least 1/(10*length), far
above double rounding error).
-/

namespace AskOromia

abbrev Str := List Char

/-! ## Content filter (dbHelpers.contentFilter, bot.js 616-646) -/

/-- Is the needle an initial segment of the haystack. -/
def isPrefixList (needle hay : Str) : Bool :=
  match needle, hay with
  | [], _ => true
  | _ :: _, [] => false
  | a :: as, b :: bs => a == b && isPrefixList as bs

/-- JavaScript String.prototype.includes on character lists. -/
def containsList (needle : Str) : Str → Bool
  | [] => isPrefixList needle []
  | c :: t => isPrefixList needle (c :: t) || containsList needle t

/-- The configured banned substrings (bot.js 617). -/
def bannedWords : List Str :=
  ["spam".toList, "scam".toList, "http://".toList, "https://".toList,
   "telegram.me".toList, "t.me/joinchat".toList, "bit.ly".toList,
   "tinyurl".toList]

/-- The for-loop over banned words (bot.js 621-625): first match wins. -/
def findBanned : List Str → Str → Bool
  | [], _ => false
  | w :: ws, lower => containsList w lower || findBanned ws lower

/-- text.toLowerCase(), restricted to the ASCII lowering that is relevant
to the all-ASCII banned-word list. -/
def toLowerStr (l : Str) : Str := l.map Char.toLower

/-- Count of ASCII capital letters, text.match(/[A-Z]/g).length (bot.js 633). -/
def countUpper (l : Str) : Nat :=
  (l.filter (fun c => decide (65 ≤ c.toNat) && decide (c.toNat ≤ 90))).length

/-- The next n characters of the list all equal c (the \1{n,} part of the
regex /(.)\1{10,}/). -/
def runStart (c : Char) : Nat → Str → Bool
  | 0, _ => true
  | _ + 1, [] => false
  | n + 1, x :: xs => x == c && runStart c n xs

/-- JavaScript line terminators, which the dot of a regex without the s
flag does not match. -/
def lineTerm (c : Char) : Bool :=
  c == '\n' || c == '\r' || c == '\u2028' || c == '\u2029'

/-- The test of the regex /(.)\1{10,}/ (bot.js 640-641): some position
holds eleven consecutive copies of one character, and that character is
not a line terminator because the dot does not match those. -/
def hasRepRun : Str → Bool
  | [] => false
  | c :: rest => (!lineTerm c && runStart c 10 rest) || hasRepRun rest

structure FilterResult where
  allowed : Bool
  reason : Str
deriving DecidableEq, Repr

/-- dbHelpers.contentFilter (bot.js 616-646), rule for rule in source
order: banned substrings on the lowercased text, then length, then
capital-letter ratio, then repetition. -/
def contentFilter (text : Str) : FilterResult :=
  if findBanned bannedWords (toLowerStr text) then
    ⟨false, "Contains banned content".toList⟩
  else if text.length > 2000 then
    ⟨false, "Content too long (max 2000 characters)".toList⟩
  else if 10 * countUpper text > 7 * text.length ∧ text.length > 20 then
    ⟨false, "Too many capital letters".toList⟩
  else if hasRepRun text then
    ⟨false, "Repetitive text detected".toList⟩
  else
    ⟨true, "".toList⟩

/-! ## Specification-level predicates for the Moderator claims.
These are written from the words of the spec, to be compared with
contentFilter which is written from the source. -/

/-- needle occurs contiguously inside hay. -/
def IsSubstr (needle hay : Str) : Prop :=
  ∃ p t, hay = p ++ needle ++ t

/-- Spec wording: the text contains a configured banned substring,
matched case-insensitively. -/
def SpecBanned (text : Str) : Prop :=
  ∃ w ∈ bannedWords, IsSubstr w (toLowerStr text)

/-- Spec wording of the repetition rule exactly as the claim states it:
a run of the same character repeated more than 10 times, any character. -/
def SpecRunAny (text : Str) : Prop :=
  ∃ c, IsSubstr (List.replicate 11 c) text

/-- Amended repetition rule: a run of the same character other than a
line terminator repeated more than 10 times. -/
def SpecRun (text : Str) : Prop :=
  ∃ c, lineTerm c = false ∧ IsSubstr (List.replicate 11 c) text

/-! ## Persistent data model (collections of bot.js, embedded as lists
in insertion order) -/

structure User where
  user_id : Nat
  username : Str
  points : Int
  questions_asked : Int
  answers_given : Int
  join_date : Nat
deriving DecidableEq, Repr

structure Question where
  id : Nat
  user_id : Nat
  username : Str
  question : Str
  topic : Str
  approved : Bool
  channel_message_id : Option Nat
  answer_count : Int
  created_at : Nat
deriving DecidableEq, Repr

structure Answer where
  id : Nat
  question_id : Nat
  user_id : Nat
  username : Str
  answer : Str
  channel_message_id : Option Nat
  votes : Int
  created_at : Nat
deriving DecidableEq, Repr

inductive VoteType where
  | up
  | down
deriving DecidableEq, Repr

structure Vote where
  user_id : Nat
  answer_id : Nat
  vote_type : VoteType
  created_at : Nat
deriving DecidableEq, Repr

structure Subscription where
  user_id : Nat
  question_id : Nat
  created_at : Nat
deriving DecidableEq, Repr

inductive NotifType where
  | new_answer
  | question_approved
  | vote_received
deriving DecidableEq, Repr

/-- The data object stored with a notification; each notification type
fills the fields its bot.js call site passes and leaves the rest empty. -/
structure NotifPayload where
  questionId : Option Nat
  answerId : Option Nat
  answerText : Option Str
  answererId : Option Nat
  voteType : Option VoteType
  questionText : Option Str
  channelMessageId : Option Nat
deriving DecidableEq, Repr

structure Notification where
  user_id : Nat
  ntype : NotifType
  payload : NotifPayload
  read : Bool
  created_at : Nat
deriving DecidableEq, Repr

structure DB where
  users : List User
  questions : List Question
  answers : List Answer
  votes : List Vote
  subscriptions : List Subscription
  notifications : List Notification
deriving DecidableEq, Repr

/-- Uniqueness invariants backed by the unique MongoDB indexes created in
setupDatabase (bot.js 85-97). -/
def DB.WF (db : DB) : Prop :=
  (db.users.map (fun u => u.user_id)).Nodup ∧
  (db.questions.map (fun q => q.id)).Nodup ∧
  (db.answers.map (fun a => a.id)).Nodup ∧
  (db.votes.map (fun v => (v.user_id, v.answer_id))).Nodup ∧
  (db.subscriptions.map (fun s => (s.user_id, s.question_id))).Nodup

/-! ## Generic list shapes of the MongoDB single-document operations -/

/-- updateOne: rewrite the first document matching the filter. -/
def updateFirst (p : α → Bool) (f : α → α) : List α → List α
  | [] => []
  | x :: xs => if p x then f x :: xs else x :: updateFirst p f xs

/-- deleteOne: remove the first document matching the filter. -/
def deleteFirst (p : α → Bool) : List α → List α
  | [] => []
  | x :: xs => if p x then xs else x :: deleteFirst p xs

/-! ## Database helpers (dbHelpers of bot.js) -/

/-- dbHelpers.getUser (bot.js 127-134). -/
def getUser (db : DB) (userId : Nat) : Option User :=
  db.users.find? (fun u => u.user_id == userId)

/-- dbHelpers.createUser (bot.js 136-157): an upsert whose update only
carries setOnInsert, so an existing user is untouched and a missing one
is inserted with zero points and counters.  The JavaScript fallback of
the username to a generated one is resolved by the caller here. -/
def createUser (db : DB) (userId : Nat) (username : Str) (now : Nat) : DB :=
  if (db.users.find? (fun u => u.user_id == userId)).isSome then db
  else { db with users := db.users ++ [⟨userId, username, 0, 0, 0, now⟩] }

inductive StatField where
  | questions_asked
  | answers_given
deriving DecidableEq, Repr

/-- The update document built by updateUserStats (bot.js 161-164): the
named counter is incremented, and the five bonus points are added exactly
when the field is one of the two counters and the increment is one. -/
def statUpdate (field : StatField) (inc : Int) (u : User) : User :=
  match field with
  | .questions_asked =>
      { u with
        questions_asked := u.questions_asked + inc,
        points := u.points + (if inc = 1 then 5 else 0) }
  | .answers_given =>
      { u with
        answers_given := u.answers_given + inc,
        points := u.points + (if inc = 1 then 5 else 0) }

/-- dbHelpers.updateUserStats (bot.js 159-173). -/
def updateUserStats (db : DB) (userId : Nat) (field : StatField) (inc : Int) : DB :=
  { db with
    users := updateFirst (fun u => u.user_id == userId) (statUpdate field inc)
      db.users }

/-- dbHelpers.getQuestion (bot.js 196-203). -/
def getQuestion (db : DB) (qid : Nat) : Option Question :=
  db.questions.find? (fun q => q.id == qid)

/-- The update document of approveQuestion (bot.js 207-210). -/
def approveUpdate (channelMessageId : Nat) (q : Question) : Question :=
  { q with approved := true, channel_message_id := some channelMessageId }

/-- dbHelpers.approveQuestion (bot.js 205-219): sets the approved flag
and the channel message id, then re-reads the question and, when found,
awards the author a questions-asked increment with its point bonus.
There is no check that the question was still unapproved. -/
def approveQuestion (db : DB) (qid : Nat) (channelMessageId : Nat) :
    DB × Option Question :=
  let db1 := { db with
    questions := updateFirst (fun q => q.id == qid)
      (approveUpdate channelMessageId) db.questions }
  match getQuestion db1 qid with
  | some q => (updateUserStats db1 q.user_id .questions_asked 1, some q)
  | none => (db1, none)

/-- The answer-count increment applied by createAnswer (bot.js 261-264). -/
def incAnswerCount (q : Question) : Question :=
  { q with answer_count := q.answer_count + 1 }

/-- dbHelpers.createAnswer (bot.js 246-272): inserts the answer with zero
votes, increments the question's answer count, and awards the answerer an
answers-given increment with its point bonus.  The fresh document id is
supplied from outside. -/
def createAnswer (db : DB) (aid questionId userId : Nat) (username answerText : Str)
    (channelMessageId : Option Nat) (now : Nat) : DB :=
  let db1 := { db with
    answers := db.answers ++
      [Answer.mk aid questionId userId username answerText channelMessageId 0 now] }
  let db2 := { db1 with
    questions := updateFirst (fun q => q.id == questionId) incAnswerCount
      db1.questions }
  updateUserStats db2 userId .answers_given 1

/-- dbHelpers.createNotification (bot.js 368-388): inserts the record;
the immediate transport delivery is external and its failure swallowed. -/
def createNotification (db : DB) (userId : Nat) (t : NotifType)
    (p : NotifPayload) (now : Nat) : DB :=
  { db with notifications := db.notifications ++ [⟨userId, t, p, false, now⟩] }

/-- dbHelpers.subscribeToQuestion (bot.js 479-495): an upsert whose
update only carries setOnInsert, so a duplicate subscribe leaves the
existing record untouched; returns true on either path. -/
def subscribeToQuestion (db : DB) (userId qid now : Nat) : DB × Bool :=
  if (db.subscriptions.find?
        (fun s => s.user_id == userId && s.question_id == qid)).isSome then
    (db, true)
  else
    ({ db with subscriptions := db.subscriptions ++ [⟨userId, qid, now⟩] }, true)

/-- dbHelpers.unsubscribeFromQuestion (bot.js 497-508). -/
def unsubscribeFromQuestion (db : DB) (userId qid : Nat) : DB :=
  { db with
    subscriptions := deleteFirst
      (fun s => s.user_id == userId && s.question_id == qid)
      db.subscriptions }

/-- dbHelpers.getSubscribers (bot.js 510-520). -/
def getSubscribers (db : DB) (qid : Nat) : List Nat :=
  (db.subscriptions.filter (fun s => s.question_id == qid)).map
    (fun s => s.user_id)

/-- dbHelpers.isSubscribed (bot.js 522-533). -/
def isSubscribed (db : DB) (userId qid : Nat) : Bool :=
  (db.subscriptions.find?
    (fun s => s.user_id == userId && s.question_id == qid)).isSome

/-- dbHelpers.getAnswerWithVotes (bot.js 606-613). -/
def getAnswerWithVotes (db : DB) (aid : Nat) : Option Answer :=
  db.answers.find? (fun a => a.id == aid)

/-- The counter update applied by voteAnswer (bot.js 579-584): only the
new vote's signed value is added. -/
def addVoteValue (voteType : VoteType) (a : Answer) : Answer :=
  { a with votes := a.votes + (if voteType = .up then 1 else -1) }

/-- dbHelpers.voteAnswer (bot.js 555-591): refuses a vote on a missing
answer or by the answer's own author without touching anything; otherwise
deletes any existing vote record of the pair, inserts the new record, and
applies only the new vote's signed value to the answer's vote counter. -/
def voteAnswer (db : DB) (userId aid : Nat) (voteType : VoteType) (now : Nat) :
    DB × Bool :=
  match getAnswerWithVotes db aid with
  | none => (db, false)
  | some answer =>
    if answer.user_id == userId then (db, false)
    else
      let db1 := { db with
        votes := deleteFirst
          (fun v => v.user_id == userId && v.answer_id == aid) db.votes }
      let db2 := { db1 with votes := db1.votes ++ [Vote.mk userId aid voteType now] }
      let db3 := { db2 with
        answers := updateFirst (fun a => a.id == aid)
          (addVoteValue voteType) db2.answers }
      (db3, true)

/-- dbHelpers.getUserVote (bot.js 593-604). -/
def getUserVote (db : DB) (userId aid : Nat) : Option VoteType :=
  (db.votes.find? (fun v => v.user_id == userId && v.answer_id == aid)).map
    (fun v => v.vote_type)

/-! ## Notification payloads as the bot.js call sites build them -/

/-- Payload of a new_answer notification (bot.js 2119-2123, 2131-2135). -/
def newAnswerPayload (qid : Nat) (answerText : Str) (answererId : Nat) :
    NotifPayload :=
  ⟨some qid, none, some answerText, some answererId, none, none, none⟩

/-- Payload of a question_approved notification (bot.js 1126-1129). -/
def approvedPayload (questionText : Str) (channelMessageId : Nat) :
    NotifPayload :=
  ⟨none, none, none, none, none, some questionText, some channelMessageId⟩

/-- Payload of a vote_received notification (bot.js 1338-1342). -/
def voteReceivedPayload (aid : Nat) (answerText : Str) (vt : VoteType) :
    NotifPayload :=
  ⟨none, some aid, some answerText, none, some vt, none, none⟩

/-! ## Callback handlers -/

inductive AdminActionResult where
  | accessDenied
  | notFound
  | ok
deriving DecidableEq, Repr

/-- The APPROVE callback handler (bot.js 1083-1136): admin gate, question
lookup, channel post (external, yielding channelMsgId), approveQuestion,
then a question_approved notification to the author fetched before the
update.  An already approved question passes the lookup and is processed
again in full. -/
def approveAction (db : DB) (adminId fromId qid channelMsgId now : Nat) :
    DB × AdminActionResult :=
  if fromId != adminId then (db, .accessDenied)
  else
    match getQuestion db qid with
    | none => (db, .notFound)
    | some question =>
        let db1 := (approveQuestion db qid channelMsgId).1
        let db2 := createNotification db1 question.user_id .question_approved
          (approvedPayload question.question channelMsgId) now
        (db2, .ok)

/-- The REJECT callback handler (bot.js 1138-1180): admin gate, question
lookup, then unconditional deletion; the author is told through a direct
transport message, which creates no Notification record.  The handler
checks only existence, never the approved flag. -/
def rejectAction (db : DB) (adminId fromId qid : Nat) : DB × AdminActionResult :=
  if fromId != adminId then (db, .accessDenied)
  else
    match getQuestion db qid with
    | none => (db, .notFound)
    | some _ =>
        ({ db with questions := deleteFirst (fun q => q.id == qid) db.questions },
         .ok)

/-- The VOTE_NONE callback handler (bot.js 1384-1404): deletes the vote
record of the pair and reports the answer's current vote counter, which
it does not modify.  The returned integer is the count shown to the
user. -/
def voteNoneAction (db : DB) (userId aid : Nat) : DB × Int :=
  let db1 := { db with
    votes := deleteFirst
      (fun v => v.user_id == userId && v.answer_id == aid) db.votes }
  let currentVotes :=
    match getAnswerWithVotes db1 aid with
    | some a => a.votes
    | none => 0
  (db1, currentVotes)

inductive AnswerPostResult where
  | blocked (reason : Str)
  | posted
  | errored
deriving DecidableEq, Repr

/-- One step of the subscriber fan-out loop (bot.js 2128-2137). -/
def notifyStep (answererId authorId qid : Nat) (answerText : Str) (now : Nat)
    (acc : DB) (subscriberId : Nat) : DB :=
  if subscriberId != answererId && subscriberId != authorId then
    createNotification acc subscriberId .new_answer
      (newAnswerPayload qid answerText answererId) now
  else acc

/-- The awaiting_answer branch of the text handler (bot.js 2081-2176):
content filter, createAnswer, auto-subscribe of the answerer, a direct
new_answer notification to the question author when different from the
answerer, then the fan-out loop over the current subscribers skipping the
answerer and the author.  When the question row is gone the JavaScript
throws on the first foreign subscriber inside the loop, which the outer
catch turns into a generic error reply; that path is the errored
result. -/
def postAnswer (db : DB) (userId : Nat) (username : Str) (questionId : Nat)
    (text : Str) (channelMessageId : Option Nat) (aid now : Nat) :
    DB × AnswerPostResult :=
  let fr := contentFilter text
  if fr.allowed = false then (db, .blocked fr.reason)
  else
    let db1 := createAnswer db aid questionId userId username text
      channelMessageId now
    let db2 := (subscribeToQuestion db1 userId questionId now).1
    match getQuestion db2 questionId with
    | none =>
        if (getSubscribers db2 questionId).all (fun s => s == userId) then
          (db2, .posted)
        else (db2, .errored)
    | some question =>
        let db3 :=
          if question.user_id != userId then
            createNotification db2 question.user_id .new_answer
              (newAnswerPayload questionId text userId) now
          else db2
        let db4 := (getSubscribers db3 questionId).foldl
          (notifyStep userId question.user_id questionId text now) db3
        (db4, .posted)

/-- The notifications appended to the store by an operation that took the
store from db to db2. -/
def newNotifs (db db2 : DB) : List Notification :=
  db2.notifications.drop db.notifications.length

/-- The per-user points bookkeeping invariant of the claims: points are
five per counted question plus five per counted answer. -/
def UserInv (u : User) : Prop :=
  u.points = 5 * (u.questions_asked + u.answers_given)

/-- The bookkeeping invariant over every stored user. -/
def DBInv (db : DB) : Prop :=
  ∀ u ∈ db.users, UserInv u

/-! ## Concrete stores used by witnesses and counterexamples -/

def aliceU : User := User.mk 1 "alice".toList 0 0 0 0

def bobU : User := User.mk 2 "bob".toList 0 0 0 0

def carolU : User := User.mk 3 "carol".toList 0 0 0 0

/-- A pending question by alice. -/
def qA : Question := Question.mk 10 1 "alice".toList "why".toList "t".toList false none 0 0

/-- An approved question by alice. -/
def qApproved : Question := Question.mk 11 1 "why".toList "why".toList "t".toList true (some 5) 0 0

/-- An answer by bob on question 10 with no votes yet. -/
def ansB : Answer := Answer.mk 20 10 2 "bob".toList "because".toList (some 77) 0 0

/-- Store with one pending question: approval claims. -/
def dbA : DB := DB.mk [aliceU] [qA] [] [] [] []

/-- Store with one approved question: rejection claims. -/
def dbR : DB := DB.mk [aliceU] [qApproved] [] [] [] []

/-- Store with an approved question by alice answered by bob: voting
claims. -/
def dbV : DB := DB.mk [aliceU, bobU, carolU]
  [Question.mk 10 1 "alice".toList "why".toList "t".toList true (some 77) 1 0]
  [ansB] [] [] []

/-- dbV after carol upvoted bob's answer: the clear-vote claim. -/
def dbV3 : DB := DB.mk [aliceU, bobU, carolU]
  [Question.mk 10 1 "alice".toList "why".toList "t".toList true (some 77) 1 0]
  [Answer.mk 20 10 2 "bob".toList "because".toList (some 77) 1 0]
  [Vote.mk 3 20 .up 50] [] []

/-- The approved question used by the fan-out witness. -/
def qC5 : Question :=
  Question.mk 10 1 "alice".toList "why".toList "t".toList true (some 77) 0 0

/-- Store with alice's approved question and carol subscribed to it: the
fan-out claim. -/
def dbC5 : DB := DB.mk [aliceU, bobU, carolU] [qC5]
  [] [] [Subscription.mk 3 10 1] []

/-- Eleven newlines: a run the claim's repetition wording catches but the
dot of the JavaScript regex does not. -/
def nlRun : Str := List.replicate 11 '\n'

/-! ## List-level lemmas -/

theorem isPrefixList_iff (needle : Str) : ∀ hay : Str,
    isPrefixList needle hay = true ↔ ∃ t, hay = needle ++ t := by
  induction needle with
  | nil =>
      intro hay
      simp [isPrefixList]
  | cons a as ih =>
      intro hay
      cases hay with
      | nil => simp [isPrefixList]
      | cons b bs =>
          simp only [isPrefixList, Bool.and_eq_true, beq_iff_eq, ih bs]
          constructor
          · rintro ⟨rfl, t, rfl⟩
            exact ⟨t, rfl⟩
          · rintro ⟨t, ht⟩
            rw [List.cons_append] at ht
            cases ht
            exact ⟨rfl, t, rfl⟩

theorem containsList_iff (needle : Str) : ∀ hay : Str,
    containsList needle hay = true ↔ IsSubstr needle hay := by
  intro hay
  induction hay with
  | nil =>
      simp only [containsList, isPrefixList_iff, IsSubstr]
      constructor
      · rintro ⟨t, ht⟩
        exact ⟨[], t, ht⟩
      · rintro ⟨p, t, ht⟩
        rcases List.append_eq_nil.mp ht.symm with ⟨h2, htn⟩
        rcases List.append_eq_nil.mp h2 with ⟨hp, hn⟩
        subst hp; subst hn; subst htn
        exact ⟨[], rfl⟩

  | cons c t ih =>
      simp only [containsList, Bool.or_eq_true, isPrefixList_iff, ih, IsSubstr]
      constructor
      · rintro (⟨s, hs⟩ | ⟨p, s, hs⟩)
        · exact ⟨[], s, by simpa using hs⟩
        · exact ⟨c :: p, s, by simp [hs]⟩
      · rintro ⟨p, s, hs⟩
        cases p with
        | nil =>
            left
            exact ⟨s, by simpa using hs⟩
        | cons c0 p1 =>
            right
            rw [List.cons_append, List.cons_append] at hs
            cases hs
            exact ⟨p1, s, by simp⟩

theorem findBanned_iff (lower : Str) : ∀ ws : List Str,
    findBanned ws lower = true ↔ ∃ w ∈ ws, IsSubstr w lower := by
  intro ws
  induction ws with
  | nil => simp [findBanned]
  | cons w ws ih =>
      simp [findBanned, Bool.or_eq_true, containsList_iff, ih]

theorem runStart_iff (c : Char) : ∀ (n : Nat) (l : Str),
    runStart c n l = true ↔ ∃ t, l = List.replicate n c ++ t := by
  intro n
  induction n with
  | zero => intro l; simp [runStart]
  | succ n ih =>
      intro l
      cases l with
      | nil => simp [runStart]
      | cons x xs =>
          simp only [runStart, Bool.and_eq_true, beq_iff_eq, ih,
            List.replicate_succ, List.cons_append]
          constructor
          · rintro ⟨rfl, t, rfl⟩
            exact ⟨t, rfl⟩
          · rintro ⟨t, ht⟩
            cases ht
            exact ⟨rfl, t, rfl⟩

theorem hasRepRun_iff : ∀ l : Str,
    hasRepRun l = true ↔ ∃ c, lineTerm c = false ∧ IsSubstr (List.replicate 11 c) l := by
  intro l
  induction l with
  | nil =>
      simp only [hasRepRun, IsSubstr]
      constructor
      · intro h; exact absurd h (by simp)
      · rintro ⟨c, _, p, t, ht⟩
        rcases List.append_eq_nil.mp ht.symm with ⟨h2, _⟩
        rcases List.append_eq_nil.mp h2 with ⟨_, hn⟩
        simp [List.replicate] at hn
  | cons c rest ih =>
      simp only [hasRepRun, Bool.or_eq_true, Bool.and_eq_true,
        Bool.not_eq_true', runStart_iff, ih]
      constructor
      · rintro (⟨hlt, t, rfl⟩ | ⟨c0, hlt, p, t, ht⟩)
        · exact ⟨c, hlt, [], t, by simp [IsSubstr, List.replicate_succ]⟩
        · exact ⟨c0, hlt, c :: p, t, by simp [ht]⟩
      · rintro ⟨c0, hlt, p, t, ht⟩
        cases p with
        | nil =>
            left
            rw [List.nil_append, List.replicate_succ, List.cons_append] at ht
            cases ht
            exact ⟨hlt, t, rfl⟩
        | cons c1 p1 =>
            right
            rw [List.cons_append, List.cons_append] at ht
            cases ht
            exact ⟨c0, hlt, p1, t, rfl⟩

theorem find?_updateFirst (p : α → Bool) (f : α → α)
    (hf : ∀ a, p a = true → p (f a) = true) : ∀ l : List α,
    (updateFirst p f l).find? p = (l.find? p).map f := by
  intro l
  induction l with
  | nil => rfl
  | cons x xs ih =>
      by_cases hx : p x = true
      · simp [updateFirst, hx, List.find?_cons_of_pos, hf x hx]
      · have hx2 : p x = false := by simp at hx; exact hx
        simp [updateFirst, hx2, List.find?_cons_of_neg, ih]

theorem forall_mem_updateFirst {P : α → Prop} (p : α → Bool) (f : α → α)
    (hf : ∀ x, P x → P (f x)) : ∀ l : List α, (∀ x ∈ l, P x) →
    ∀ x ∈ updateFirst p f l, P x := by
  intro l
  induction l with
  | nil => intro _ x hx; simp [updateFirst] at hx
  | cons y ys ih =>
      intro hl x hx
      rw [updateFirst] at hx
      by_cases hy : p y = true
      · rw [if_pos hy] at hx
        rcases List.mem_cons.mp hx with h | h
        · exact h ▸ hf y (hl y (List.mem_cons_self y ys))
        · exact hl x (List.mem_cons_of_mem y h)
      · rw [if_neg hy] at hx
        rcases List.mem_cons.mp hx with h | h
        · exact h ▸ hl y (List.mem_cons_self y ys)
        · exact ih (fun z hz => hl z (List.mem_cons_of_mem y hz)) x h

theorem mem_of_mem_deleteFirst (p : α → Bool) : ∀ l : List α,
    ∀ x ∈ deleteFirst p l, x ∈ l := by
  intro l
  induction l with
  | nil => intro x hx; simp [deleteFirst] at hx
  | cons y ys ih =>
      intro x hx
      rw [deleteFirst] at hx
      by_cases hy : p y = true
      · rw [if_pos hy] at hx
        exact List.mem_cons_of_mem y hx
      · rw [if_neg hy] at hx
        rcases List.mem_cons.mp hx with h | h
        · exact h ▸ List.mem_cons_self y ys
        · exact List.mem_cons_of_mem y (ih x h)

theorem deleteFirst_of_forall_neg (p : α → Bool) : ∀ l : List α,
    (∀ x ∈ l, p x = false) → deleteFirst p l = l := by
  intro l
  induction l with
  | nil => intro _; rfl
  | cons y ys ih =>
      intro h
      rw [deleteFirst, if_neg (by simp [h y (List.mem_cons_self y ys)]),
        ih (fun z hz => h z (List.mem_cons_of_mem y hz))]

theorem countP_deleteFirst_eq_zero (p : α → Bool) : ∀ l : List α,
    l.countP p ≤ 1 → (deleteFirst p l).countP p = 0 := by
  intro l
  induction l with
  | nil => intro _; rfl
  | cons y ys ih =>
      intro h
      rw [List.countP_cons] at h
      by_cases hy : p y = true
      · rw [deleteFirst, if_pos hy]
        rw [hy, if_pos rfl] at h
        omega
      · have hy2 : p y = false := by simp at hy; exact hy
        rw [hy2] at h
        simp only [Bool.false_eq_true, if_false, Nat.add_zero] at h
        rw [deleteFirst, if_neg (by simp [hy2]), List.countP_cons, hy2]
        simpa using ih h

theorem deleteFirst_append_singleton (p : α → Bool) (x : α) (hx : p x = true) :
    ∀ l : List α, (∀ y ∈ l, p y = false) → deleteFirst p (l ++ [x]) = l := by
  intro l
  induction l with
  | nil => simp [deleteFirst, hx]
  | cons y ys ih =>
      intro h
      rw [List.cons_append, deleteFirst,
        if_neg (by simp [h y (List.mem_cons_self y ys)]),
        ih (fun z hz => h z (List.mem_cons_of_mem y hz))]

theorem find?_deleteFirst_eq_none (p : α → Bool) (l : List α)
    (h : l.countP p ≤ 1) : (deleteFirst p l).find? p = none := by
  rw [List.find?_eq_none]
  intro x hx
  have h0 := countP_deleteFirst_eq_zero p l h
  have := List.countP_eq_zero.mp h0 x hx
  simpa using this

theorem find?_append_isSome (p : α → Bool) (l : List α) (x : α)
    (hx : p x = true) : ((l ++ [x]).find? p).isSome = true := by
  rw [List.find?_append]
  cases hl : l.find? p with
  | none => simp [List.find?, hx]
  | some a => simp

theorem countP_key_nodup {β : Type} [BEq β] [LawfulBEq β] (key : α → β) (b : β) :
    ∀ l : List α, (l.map key).Nodup →
    l.countP (fun a => key a == b) =
      if (l.find? (fun a => key a == b)).isSome then 1 else 0 := by
  intro l
  induction l with
  | nil => intro _; rfl
  | cons y ys ih =>
      intro h
      rw [List.map_cons, List.nodup_cons] at h
      by_cases hy : (key y == b) = true
      · have hb : key y = b := eq_of_beq hy
        have hz : ys.countP (fun a => key a == b) = 0 := by
          apply List.countP_eq_zero.mpr
          intro a ha hcontra
          have hab : key a = b := eq_of_beq (by simpa using hcontra)
          exact h.1 (by rw [hb, ← hab]; exact List.mem_map_of_mem key ha)
        have hstep : List.find? (fun a => key a == b) (y :: ys) = some y :=
          @List.find?_cons_of_pos _ (fun a => key a == b) y ys hy
        rw [List.countP_cons, hz, if_pos hy, hstep]
        simp
      · have hy2 : (key y == b) = false := by simp at hy ⊢; exact hy
        have hstep : List.find? (fun a => key a == b) (y :: ys) =
            List.find? (fun a => key a == b) ys :=
          @List.find?_cons_of_neg _ (fun a => key a == b) y ys (by simp [hy2])
        rw [List.countP_cons, hy2, ih h.2, hstep]
        simp

/-! ## Projection lemmas for the store operations -/

@[simp] theorem updateUserStats_questions (db : DB) (uid : Nat) (f : StatField)
    (i : Int) : (updateUserStats db uid f i).questions = db.questions := rfl

@[simp] theorem updateUserStats_answers (db : DB) (uid : Nat) (f : StatField)
    (i : Int) : (updateUserStats db uid f i).answers = db.answers := rfl

@[simp] theorem updateUserStats_votes (db : DB) (uid : Nat) (f : StatField)
    (i : Int) : (updateUserStats db uid f i).votes = db.votes := rfl

@[simp] theorem updateUserStats_subscriptions (db : DB) (uid : Nat)
    (f : StatField) (i : Int) :
    (updateUserStats db uid f i).subscriptions = db.subscriptions := rfl

@[simp] theorem updateUserStats_notifications (db : DB) (uid : Nat)
    (f : StatField) (i : Int) :
    (updateUserStats db uid f i).notifications = db.notifications := rfl

@[simp] theorem createNotification_users (db : DB) (uid : Nat) (t : NotifType)
    (p : NotifPayload) (now : Nat) :
    (createNotification db uid t p now).users = db.users := rfl

@[simp] theorem createNotification_questions (db : DB) (uid : Nat)
    (t : NotifType) (p : NotifPayload) (now : Nat) :
    (createNotification db uid t p now).questions = db.questions := rfl

@[simp] theorem createNotification_answers (db : DB) (uid : Nat) (t : NotifType)
    (p : NotifPayload) (now : Nat) :
    (createNotification db uid t p now).answers = db.answers := rfl

@[simp] theorem createNotification_votes (db : DB) (uid : Nat) (t : NotifType)
    (p : NotifPayload) (now : Nat) :
    (createNotification db uid t p now).votes = db.votes := rfl

@[simp] theorem createNotification_subscriptions (db : DB) (uid : Nat)
    (t : NotifType) (p : NotifPayload) (now : Nat) :
    (createNotification db uid t p now).subscriptions = db.subscriptions := rfl

@[simp] theorem createNotification_notifications (db : DB) (uid : Nat)
    (t : NotifType) (p : NotifPayload) (now : Nat) :
    (createNotification db uid t p now).notifications =
      db.notifications ++ [Notification.mk uid t p false now] := rfl

@[simp] theorem createAnswer_subscriptions (db : DB) (aid qid uid : Nat)
    (name text : Str) (cmi : Option Nat) (now : Nat) :
    (createAnswer db aid qid uid name text cmi now).subscriptions =
      db.subscriptions := rfl

@[simp] theorem createAnswer_notifications (db : DB) (aid qid uid : Nat)
    (name text : Str) (cmi : Option Nat) (now : Nat) :
    (createAnswer db aid qid uid name text cmi now).notifications =
      db.notifications := rfl

@[simp] theorem createAnswer_votes (db : DB) (aid qid uid : Nat)
    (name text : Str) (cmi : Option Nat) (now : Nat) :
    (createAnswer db aid qid uid name text cmi now).votes = db.votes := rfl

theorem subscribeToQuestion_users (db : DB) (u q t : Nat) :
    (subscribeToQuestion db u q t).1.users = db.users := by
  unfold subscribeToQuestion; split <;> rfl

theorem subscribeToQuestion_questions (db : DB) (u q t : Nat) :
    (subscribeToQuestion db u q t).1.questions = db.questions := by
  unfold subscribeToQuestion; split <;> rfl

theorem subscribeToQuestion_answers (db : DB) (u q t : Nat) :
    (subscribeToQuestion db u q t).1.answers = db.answers := by
  unfold subscribeToQuestion; split <;> rfl

theorem subscribeToQuestion_votes (db : DB) (u q t : Nat) :
    (subscribeToQuestion db u q t).1.votes = db.votes := by
  unfold subscribeToQuestion; split <;> rfl

theorem subscribeToQuestion_notifications (db : DB) (u q t : Nat) :
    (subscribeToQuestion db u q t).1.notifications = db.notifications := by
  unfold subscribeToQuestion; split <;> rfl

theorem subscribeToQuestion_snd (db : DB) (u q t : Nat) :
    (subscribeToQuestion db u q t).2 = true := by
  unfold subscribeToQuestion; split <;> rfl

/-- After subscribe the pair is present. -/
theorem subscribeToQuestion_isSubscribed (db : DB) (u q t : Nat) :
    isSubscribed (subscribeToQuestion db u q t).1 u q = true := by
  unfold subscribeToQuestion isSubscribed
  by_cases h : (db.subscriptions.find?
      (fun s => s.user_id == u && s.question_id == q)).isSome = true
  · rw [if_pos h]; exact h
  · rw [if_neg h]
    exact find?_append_isSome _ _ _ (by simp)

/-- Either the subscriptions are untouched (pair present) or exactly the
one record is appended. -/
theorem subscribeToQuestion_subscriptions (db : DB) (u q t : Nat) :
    (subscribeToQuestion db u q t).1.subscriptions = db.subscriptions ∨
    (subscribeToQuestion db u q t).1.subscriptions =
      db.subscriptions ++ [Subscription.mk u q t] := by
  unfold subscribeToQuestion
  split
  · exact Or.inl rfl
  · exact Or.inr rfl

/-! ## Behaviour of the find?-based getters under the update helpers -/

theorem getQuestion_updateUserStats (db : DB) (uid : Nat) (f : StatField)
    (i : Int) (qid : Nat) :
    getQuestion (updateUserStats db uid f i) qid = getQuestion db qid := rfl

theorem statUpdate_user_id (f : StatField) (i : Int) (u : User) :
    (statUpdate f i u).user_id = u.user_id := by
  cases f <;> rfl

theorem getUser_updateUserStats (db : DB) (uid : Nat) (f : StatField)
    (i : Int) :
    getUser (updateUserStats db uid f i) uid =
      (getUser db uid).map (statUpdate f i) := by
  unfold getUser updateUserStats
  exact find?_updateFirst _ _
    (fun a ha => by rw [statUpdate_user_id]; exact ha) db.users

theorem statUpdate_qa_one (u : User) :
    statUpdate .questions_asked 1 u =
      { u with questions_asked := u.questions_asked + 1,
               points := u.points + 5 } := by
  simp [statUpdate]

theorem statUpdate_ag_one (u : User) :
    statUpdate .answers_given 1 u =
      { u with answers_given := u.answers_given + 1,
               points := u.points + 5 } := by
  simp [statUpdate]

theorem getUser_questions_change (db : DB) (qs : List Question) (uid : Nat) :
    getUser { db with questions := qs } uid = getUser db uid := rfl

theorem approveUpdate_id (m : Nat) (q : Question) :
    (approveUpdate m q).id = q.id := rfl

theorem incAnswerCount_id (q : Question) : (incAnswerCount q).id = q.id := rfl

theorem incAnswerCount_user_id (q : Question) :
    (incAnswerCount q).user_id = q.user_id := rfl

theorem addVoteValue_id (vt : VoteType) (a : Answer) :
    (addVoteValue vt a).id = a.id := rfl

theorem addVoteValue_user_id (vt : VoteType) (a : Answer) :
    (addVoteValue vt a).user_id = a.user_id := rfl

/-- approveQuestion on a found question: the returned question is the
updated one and the resulting store is the questions rewrite followed by
the author award. -/
theorem approveQuestion_spec (db : DB) (qid m : Nat) (q : Question)
    (hq : getQuestion db qid = some q) :
    approveQuestion db qid m =
      (updateUserStats
        { db with
          questions := updateFirst (fun x => x.id == qid) (approveUpdate m)
            db.questions }
        q.user_id .questions_asked 1,
       some (approveUpdate m q)) := by
  have h2 : getQuestion
      { db with
        questions := updateFirst (fun x => x.id == qid) (approveUpdate m)
          db.questions } qid = some (approveUpdate m q) := by
    unfold getQuestion at *
    rw [find?_updateFirst _ _
      (fun a ha => by rw [approveUpdate_id]; exact ha) db.questions, hq]
    rfl
  unfold approveQuestion
  simp only [h2]
  rfl

/-! ## The subscriber fan-out loop -/

theorem foldl_notifyStep_notifications (B a qid : Nat) (text : Str) (now : Nat) :
    ∀ (subs : List Nat) (acc : DB),
    (subs.foldl (notifyStep B a qid text now) acc).notifications =
      acc.notifications ++
        ((subs.filter (fun s => s != B && s != a)).map
          (fun s => Notification.mk s .new_answer (newAnswerPayload qid text B)
            false now)) := by
  intro subs
  induction subs with
  | nil => intro acc; simp
  | cons s ss ih =>
      intro acc
      rw [List.foldl_cons, ih]
      by_cases hs : (s != B && s != a) = true
      · simp [notifyStep, hs, List.filter_cons]
      · have hs2 : (s != B && s != a) = false := by simpa using hs
        simp [notifyStep, hs2, List.filter_cons]

theorem foldl_notifyStep_users (B a qid : Nat) (text : Str) (now : Nat) :
    ∀ (subs : List Nat) (acc : DB),
    (subs.foldl (notifyStep B a qid text now) acc).users = acc.users := by
  intro subs
  induction subs with
  | nil => intro acc; rfl
  | cons s ss ih =>
      intro acc
      rw [List.foldl_cons, ih]
      unfold notifyStep
      split <;> rfl

theorem foldl_notifyStep_subscriptions (B a qid : Nat) (text : Str) (now : Nat) :
    ∀ (subs : List Nat) (acc : DB),
    (subs.foldl (notifyStep B a qid text now) acc).subscriptions =
      acc.subscriptions := by
  intro subs
  induction subs with
  | nil => intro acc; rfl
  | cons s ss ih =>
      intro acc
      rw [List.foldl_cons, ih]
      unfold notifyStep
      split <;> rfl

/-! ## Preservation of the points bookkeeping invariant -/

theorem statUpdate_one_inv (f : StatField) (x : User) (hx : UserInv x) :
    UserInv (statUpdate f 1 x) := by
  cases f <;> (simp [statUpdate, UserInv] at hx ⊢; omega)

theorem DBInv_updateUserStats (db : DB) (uid : Nat) (f : StatField)
    (h : DBInv db) : DBInv (updateUserStats db uid f 1) := by
  unfold DBInv updateUserStats at *
  exact forall_mem_updateFirst _ _ (statUpdate_one_inv f) db.users h

theorem DBInv_createAnswer (db : DB) (aid qid uid : Nat) (name text : Str)
    (cmi : Option Nat) (now : Nat) (h : DBInv db) :
    DBInv (createAnswer db aid qid uid name text cmi now) := by
  unfold createAnswer
  exact DBInv_updateUserStats _ _ _ (fun u hu => h u hu)

theorem DBInv_approveQuestion (db : DB) (qid m : Nat) (h : DBInv db) :
    DBInv (approveQuestion db qid m).1 := by
  unfold approveQuestion
  cases hq : getQuestion
      { db with
        questions := updateFirst (fun q => q.id == qid) (approveUpdate m)
          db.questions } qid with
  | none => simpa [hq] using fun u hu => h u hu
  | some q0 =>
      simp only [hq]
      exact DBInv_updateUserStats _ _ _ (fun u hu => h u hu)

/-! ## Further support lemmas -/

theorem countP_ext (p q : α → Bool) (h : ∀ a, p a = q a) :
    ∀ l : List α, l.countP p = l.countP q := by
  intro l
  induction l with
  | nil => rfl
  | cons x xs ih => rw [List.countP_cons, List.countP_cons, h x, ih]

theorem votePred_align (U aid : Nat) :
    (fun v : Vote => ((v.user_id, v.answer_id) == (U, aid))) =
      (fun v : Vote => v.user_id == U && v.answer_id == aid) := rfl

theorem subPred_align (U Q : Nat) :
    (fun s : Subscription => ((s.user_id, s.question_id) == (U, Q))) =
      (fun s : Subscription => s.user_id == U && s.question_id == Q) := rfl

theorem subscribeToQuestion_of_isSome (db : DB) (U Q t : Nat)
    (h : (db.subscriptions.find?
      (fun s => s.user_id == U && s.question_id == Q)).isSome = true) :
    subscribeToQuestion db U Q t = (db, true) := by
  unfold subscribeToQuestion
  rw [if_pos h]

theorem subscribeToQuestion_of_isNone (db : DB) (U Q t : Nat)
    (h : ¬ (db.subscriptions.find?
      (fun s => s.user_id == U && s.question_id == Q)).isSome = true) :
    subscribeToQuestion db U Q t =
      ({ db with
         subscriptions := db.subscriptions ++ [Subscription.mk U Q t] },
       true) := by
  unfold subscribeToQuestion
  rw [if_neg h]

theorem createAnswer_questions (db : DB) (aid qid uid : Nat)
    (name text : Str) (cmi : Option Nat) (now : Nat) :
    (createAnswer db aid qid uid name text cmi now).questions =
      updateFirst (fun q => q.id == qid) incAnswerCount db.questions := rfl

theorem getSubscribers_createNotification (db : DB) (u : Nat) (t : NotifType)
    (p : NotifPayload) (n qid : Nat) :
    getSubscribers (createNotification db u t p n) qid =
      getSubscribers db qid := rfl

/-- The shape of a successful non-self vote (bot.js 565-586). -/
theorem voteAnswer_success (db : DB) (U aid : Nat) (vt : VoteType) (t : Nat)
    (ans : Answer) (ha : getAnswerWithVotes db aid = some ans)
    (hne : ans.user_id ≠ U) :
    voteAnswer db U aid vt t =
      ({ db with
         votes := deleteFirst (fun v => v.user_id == U && v.answer_id == aid)
             db.votes ++ [Vote.mk U aid vt t],
         answers := updateFirst (fun a => a.id == aid) (addVoteValue vt)
           db.answers }, true) := by
  unfold voteAnswer
  rw [ha]
  have hb : (ans.user_id == U) = false := by simp [hne]
  simp [hb]

/-- The composed-function shape of the count of notifications to one
recipient over the mapped, filtered fan-out list. -/
theorem countP_mapped_filtered (B a qid now : Nat) (text : Str) (u2 : Nat)
    (subs : List Nat) :
    (((subs.filter (fun s => s != B && s != a)).map
      (fun s => Notification.mk s .new_answer (newAnswerPayload qid text B)
        false now)).countP (fun n => n.user_id == u2)) =
    subs.countP (fun s => (s == u2) && (s != B && s != a)) := by
  rw [List.countP_map, List.countP_filter]
  rfl

/-- Count of notifications to one recipient across the author part and
the subscriber fan-out part. -/
theorem countP_fanout_list (B a qid now : Nat) (text : Str) (subs : List Nat)
    (u2 : Nat) :
    (((if a != B then
        [Notification.mk a .new_answer (newAnswerPayload qid text B) false now]
      else []) ++
     (subs.filter (fun s => s != B && s != a)).map
       (fun s => Notification.mk s .new_answer (newAnswerPayload qid text B)
         false now)).countP (fun n => n.user_id == u2)) =
    ((if u2 = a ∧ a ≠ B then 1 else 0) +
     (if u2 ≠ B ∧ u2 ≠ a then subs.countP (fun s => s == u2) else 0)) := by
  rw [List.countP_append, countP_mapped_filtered]
  have h1 : (List.countP (fun n => n.user_id == u2)
      (if a != B then
        [Notification.mk a .new_answer (newAnswerPayload qid text B) false now]
      else [])) = if u2 = a ∧ a ≠ B then 1 else 0 := by
    by_cases hab : (a != B) = true
    · have hab2 : a ≠ B := by simpa using hab
      by_cases hu : u2 = a
      · simp [hab, hu, hab2, List.countP_cons]
      · have hau : ¬ a = u2 := fun h => hu h.symm
        simp [hab, hu, hau, List.countP_cons]
    · have hab2 : a = B := by simpa using hab
      simp [hab, hab2]
  have h2 : subs.countP (fun s => (s == u2) && (s != B && s != a)) =
      if u2 ≠ B ∧ u2 ≠ a then subs.countP (fun s => s == u2) else 0 := by
    by_cases hu : u2 ≠ B ∧ u2 ≠ a
    · rw [if_pos hu]
      apply countP_ext
      intro s
      by_cases hs : s = u2
      · subst hs; simp [hu.1, hu.2]
      · simp [hs]
    · rw [if_neg hu]
      apply List.countP_eq_zero.mpr
      intro s hs hcon
      simp only [Bool.and_eq_true, beq_iff_eq, bne_iff_ne, ne_eq] at hcon
      rcases hcon with ⟨rfl, hb, ha2⟩
      exact hu ⟨hb, ha2⟩
  rw [h1, h2]

/-- Count of subscription records of a pair under the unique index. -/
theorem countP_subscribers_of_nodup (db : DB) (u2 qid : Nat)
    (hn : (db.subscriptions.map (fun s => (s.user_id, s.question_id))).Nodup) :
    db.subscriptions.countP
      (fun s0 => s0.user_id == u2 && s0.question_id == qid) =
    if isSubscribed db u2 qid = true then 1 else 0 := by
  have hc := countP_key_nodup
    (fun s : Subscription => (s.user_id, s.question_id)) (u2, qid)
    db.subscriptions hn
  rw [subPred_align] at hc
  rw [hc]
  rfl

theorem countP_getSubscribers (db2 : DB) (qid u2 : Nat) :
    ((getSubscribers db2 qid).countP (fun s => s == u2)) =
      db2.subscriptions.countP
        (fun s0 => s0.user_id == u2 && s0.question_id == qid) := by
  unfold getSubscribers
  rw [List.countP_map, List.countP_filter]
  rfl

/-- Notifications produced by the author notification followed by the
subscriber fan-out loop, as one appended block. -/
theorem fanout_newNotifs (db2 : DB) (B a qid now : Nat) (text : Str) :
    (((getSubscribers
        (if a != B then
          createNotification db2 a .new_answer (newAnswerPayload qid text B)
            now
        else db2) qid).foldl
      (notifyStep B a qid text now)
      (if a != B then
        createNotification db2 a .new_answer (newAnswerPayload qid text B) now
      else db2)).notifications) =
    db2.notifications ++
      ((if a != B then
          [Notification.mk a .new_answer (newAnswerPayload qid text B)
            false now]
        else []) ++
       ((getSubscribers db2 qid).filter (fun s => s != B && s != a)).map
         (fun s => Notification.mk s .new_answer (newAnswerPayload qid text B)
           false now)) := by
  by_cases hab : (a != B) = true
  · rw [if_pos hab,
      foldl_notifyStep_notifications, getSubscribers_createNotification,
      createNotification_notifications, List.append_assoc, if_pos hab]
  · rw [if_neg hab, foldl_notifyStep_notifications, if_neg hab]
    rw [List.nil_append]

/-- The shape of a successful answer post (bot.js 2081-2176) when the
question exists and the filter passes. -/
theorem postAnswer_spec (db : DB) (B qid aid now : Nat) (uname text : Str)
    (cmi : Option Nat) (q : Question)
    (hq : getQuestion db qid = some q)
    (hf : (contentFilter text).allowed = true) :
    postAnswer db B uname qid text cmi aid now =
      ((getSubscribers
          (if q.user_id != B then
        createNotification (subscribeToQuestion (createAnswer db aid qid B uname text cmi now) B qid now).1
          q.user_id .new_answer (newAnswerPayload qid text B) now
      else (subscribeToQuestion (createAnswer db aid qid B uname text cmi now) B qid now).1) qid).foldl
        (notifyStep B q.user_id qid text now)
        (if q.user_id != B then
        createNotification (subscribeToQuestion (createAnswer db aid qid B uname text cmi now) B qid now).1
          q.user_id .new_answer (newAnswerPayload qid text B) now
      else (subscribeToQuestion (createAnswer db aid qid B uname text cmi now) B qid now).1),
       .posted) := by
  have hq1 : getQuestion (createAnswer db aid qid B uname text cmi now) qid =
      some (incAnswerCount q) := by
    show (updateFirst (fun x => x.id == qid) incAnswerCount
      db.questions).find? (fun x => x.id == qid) = _
    rw [find?_updateFirst _ _
      (fun a h => by rw [incAnswerCount_id]; exact h) db.questions]
    unfold getQuestion at hq
    rw [hq]
    rfl
  have hq2 : getQuestion (subscribeToQuestion (createAnswer db aid qid B uname text cmi now) B qid now).1 qid = some (incAnswerCount q) := by
    unfold getQuestion at hq1 ⊢
    rw [subscribeToQuestion_questions]
    exact hq1
  simp only [postAnswer, hq2, hf, Bool.true_eq_false, if_false,
    incAnswerCount_user_id]

/-- The shape of a successful admin approval (bot.js 1083-1136): channel
post, approveQuestion, notification to the author read before the update.
No already-approved check exists, so this applies to approved questions
as well. -/
theorem approveAction_spec (db : DB) (adminId qid m t : Nat) (q : Question)
    (hq : getQuestion db qid = some q) :
    approveAction db adminId adminId qid m t =
      (createNotification
        (updateUserStats
          { db with
            questions := updateFirst (fun x => x.id == qid) (approveUpdate m)
              db.questions }
          q.user_id .questions_asked 1)
        q.user_id .question_approved (approvedPayload q.question m) t,
       .ok) := by
  unfold approveAction
  rw [hq, approveQuestion_spec db qid m q hq]
  simp

theorem getQuestion_createAnswer_map (db : DB) (aid qid uid : Nat)
    (name text : Str) (cmi : Option Nat) (now : Nat) :
    getQuestion (createAnswer db aid qid uid name text cmi now) qid =
      (getQuestion db qid).map incAnswerCount := by
  show (updateFirst (fun x => x.id == qid) incAnswerCount
    db.questions).find? (fun x => x.id == qid) = _
  exact find?_updateFirst _ _
    (fun a h => by rw [incAnswerCount_id]; exact h) db.questions

theorem DBInv_of_users_eq (d1 d2 : DB) (h : d1.users = d2.users)
    (hi : DBInv d2) : DBInv d1 := by
  unfold DBInv at *
  rw [h]
  exact hi

theorem DBInv_createUser (db : DB) (uid : Nat) (name : Str) (t : Nat)
    (h : DBInv db) : DBInv (createUser db uid name t) := by
  unfold createUser DBInv at *
  split
  · exact h
  · intro u hu
    rcases List.mem_append.mp hu with h1 | h1
    · exact h u h1
    · simp only [List.mem_singleton] at h1
      rw [h1]
      simp [UserInv]

theorem createUser_fresh (db : DB) (uid : Nat) (name : Str) (t : Nat)
    (h : getUser db uid = none) :
    getUser (createUser db uid name t) uid =
      some (User.mk uid name 0 0 0 t) := by
  unfold createUser
  unfold getUser at h ⊢
  rw [if_neg (by rw [h]; simp)]
  show ((db.users ++ [User.mk uid name 0 0 0 t]).find?
    (fun u => u.user_id == uid)) = _
  rw [List.find?_append, h]
  have hone : List.find? (fun u : User => u.user_id == uid)
      [User.mk uid name 0 0 0 t] = some (User.mk uid name 0 0 0 t) :=
    @List.find?_cons_of_pos _ (fun u : User => u.user_id == uid) _ []
      (by simp)
  rw [hone]
  rfl

theorem postAnswer_of_no_question (db : DB) (B qid aid now : Nat)
    (uname text : Str) (cmi : Option Nat)
    (hq : getQuestion db qid = none)
    (hf : (contentFilter text).allowed = true) :
    (postAnswer db B uname qid text cmi aid now).1 = (subscribeToQuestion (createAnswer db aid qid B uname text cmi now) B qid now).1 := by
  have hq1 : getQuestion (createAnswer db aid qid B uname text cmi now) qid =
      none := by
    rw [getQuestion_createAnswer_map, hq]
    rfl
  have hq2 : getQuestion (subscribeToQuestion (createAnswer db aid qid B uname text cmi now) B qid now).1 qid = none := by
    unfold getQuestion at hq1 ⊢
    rw [subscribeToQuestion_questions]
    exact hq1
  simp only [postAnswer, hq2, hf, Bool.true_eq_false, if_false]
  split <;> rfl

theorem postAnswer_blocked (db : DB) (B qid aid now : Nat)
    (uname text : Str) (cmi : Option Nat)
    (hf : (contentFilter text).allowed = false) :
    postAnswer db B uname qid text cmi aid now =
      (db, .blocked (contentFilter text).reason) := by
  simp only [postAnswer]
  rw [if_pos hf]

theorem DBInv_postAnswer (db : DB) (B qid aid now : Nat) (uname text : Str)
    (cmi : Option Nat) (h : DBInv db) :
    DBInv (postAnswer db B uname qid text cmi aid now).1 := by
  by_cases hf : (contentFilter text).allowed = false
  · rw [postAnswer_blocked db B qid aid now uname text cmi hf]
    exact h
  · have hf2 : (contentFilter text).allowed = true := by
      cases hcf : (contentFilter text).allowed
      · exact absurd hcf hf
      · rfl
    have hDB1 : DBInv (createAnswer db aid qid B uname text cmi now) :=
      DBInv_createAnswer db aid qid B uname text cmi now h
    have hDB2 : DBInv (subscribeToQuestion (createAnswer db aid qid B uname text cmi now) B qid now).1 :=
      DBInv_of_users_eq _ _
        (subscribeToQuestion_users (createAnswer db aid qid B uname text cmi
          now) B qid now) hDB1
    cases hq : getQuestion db qid with
    | none =>
        rw [postAnswer_of_no_question db B qid aid now uname text cmi hq hf2]
        exact hDB2
    | some q =>
        have hP := postAnswer_spec db B qid aid now uname text cmi q hq hf2
        have hP1 : (postAnswer db B uname qid text cmi aid now).1 =
            (getSubscribers (if q.user_id != B then
        createNotification (subscribeToQuestion (createAnswer db aid qid B uname text cmi now) B qid now).1
          q.user_id .new_answer (newAnswerPayload qid text B) now
      else (subscribeToQuestion (createAnswer db aid qid B uname text cmi now) B qid now).1) qid).foldl
              (notifyStep B q.user_id qid text now) (if q.user_id != B then
        createNotification (subscribeToQuestion (createAnswer db aid qid B uname text cmi now) B qid now).1
          q.user_id .new_answer (newAnswerPayload qid text B) now
      else (subscribeToQuestion (createAnswer db aid qid B uname text cmi now) B qid now).1) := by
          rw [hP]
        rw [hP1]
        apply DBInv_of_users_eq _ _
          (foldl_notifyStep_users B q.user_id qid text now _ _)
        by_cases hab : (q.user_id != B) = true
        · rw [if_pos hab]
          exact fun u hu => hDB2 u hu
        · rw [if_neg hab]
          exact hDB2

/-! ## Claim theorems -/

/-- C7: the Moderator rejects the text of fifteen repeated capital A
characters with the repetitive-content reason; the text is 15 characters
long, so neither the length rule nor the uppercase-ratio rule (which
demands more than 20 characters) applies, and the repetition rule is the
one that fires. -/
theorem C7_repeated_A_rejected :
    contentFilter "AAAAAAAAAAAAAAA".toList =
      ⟨false, "Repetitive text detected".toList⟩ ∧
    ("AAAAAAAAAAAAAAA".toList).length = 15 ∧
    ¬ ("AAAAAAAAAAAAAAA".toList).length > 20 ∧
    ¬ ("AAAAAAAAAAAAAAA".toList).length > 2000 := by
  decide

/-- C6 counterexample: eleven newline characters are a run of the same
character repeated more than ten times and trip no other rule, yet the
filter allows the text, because the dot of the JavaScript regex
/(.)\1{10,}/ does not match line terminators.  The claim, which demands
rejection exactly when such a run exists, is therefore false on this
input. -/
theorem C6_counterexample_newline_run :
    contentFilter nlRun = ⟨true, "".toList⟩ ∧ SpecRunAny nlRun ∧
    nlRun.length = 11 := by
  refine ⟨by decide, ⟨'
', [], [], by decide⟩, by decide⟩

/-- C6 (amended): the Moderator returns not-allowed exactly when the text
contains a configured banned substring case-insensitively, or its length
exceeds 2000, or the uppercase ratio exceeds 0.7 on a text longer than
20 characters, or the text contains a run of the same character, other
than a line terminator, repeated more than 10 times; the rules are
evaluated in that fixed order and the reason of the first failing rule is
returned. -/
theorem C6_filter_rules (text : Str) :
    ((contentFilter text).allowed = false ↔
      (SpecBanned text ∨ text.length > 2000 ∨
        (10 * countUpper text > 7 * text.length ∧ text.length > 20) ∨
        SpecRun text)) ∧
    (SpecBanned text →
      contentFilter text = ⟨false, "Contains banned content".toList⟩) ∧
    (¬ SpecBanned text → text.length > 2000 →
      contentFilter text =
        ⟨false, "Content too long (max 2000 characters)".toList⟩) ∧
    (¬ SpecBanned text → ¬ text.length > 2000 →
      10 * countUpper text > 7 * text.length ∧ text.length > 20 →
      contentFilter text = ⟨false, "Too many capital letters".toList⟩) ∧
    (¬ SpecBanned text → ¬ text.length > 2000 →
      ¬ (10 * countUpper text > 7 * text.length ∧ text.length > 20) →
      SpecRun text →
      contentFilter text = ⟨false, "Repetitive text detected".toList⟩) ∧
    (¬ SpecBanned text → ¬ text.length > 2000 →
      ¬ (10 * countUpper text > 7 * text.length ∧ text.length > 20) →
      ¬ SpecRun text → contentFilter text = ⟨true, "".toList⟩) := by
  have hB := findBanned_iff (toLowerStr text) bannedWords
  have hR := hasRepRun_iff text
  by_cases h1 : findBanned bannedWords (toLowerStr text) = true
  · have hSB : SpecBanned text := hB.mp h1
    simp [contentFilter, h1, hSB]
  · have hSB : ¬ SpecBanned text := fun hc => h1 (hB.mpr hc)
    by_cases h2 : text.length > 2000
    · simp [contentFilter, h1, h2, hSB]
    · by_cases h3 : 10 * countUpper text > 7 * text.length ∧ text.length > 20
      · simp [contentFilter, h1, h2, h3, hSB]
      · by_cases h4 : hasRepRun text = true
        · have hSR : SpecRun text := hR.mp h4
          simp [contentFilter, h1, h2, h3, h4, hSB, hSR]
        · have hSR : ¬ SpecRun text := fun hc => h4 (hR.mpr hc)
          simp [contentFilter, h1, h2, h3, h4, hSB, hSR]

/-- C6 amended-theorem witness: a concrete banned-substring rejection. -/
theorem C6_filter_rules_witness :
    contentFilter "hello spam".toList =
      ⟨false, "Contains banned content".toList⟩ :=
  (C6_filter_rules "hello spam".toList).2.1
    ⟨"spam".toList, by decide, "hello ".toList, [], by decide⟩

/-- C4: a vote by the author of the answer is rejected, regardless of the
vote value, and the whole store is unchanged: no vote record is created
or deleted and the aggregate count is untouched. -/
theorem C4_self_vote_rejected (db : DB) (U aid : Nat) (vt : VoteType)
    (now : Nat) (a : Answer) (ha : getAnswerWithVotes db aid = some a)
    (hself : a.user_id = U) :
    voteAnswer db U aid vt now = (db, false) := by
  unfold voteAnswer
  rw [ha]
  simp [hself]

/-- C4 witness: bob voting on his own answer is refused and the store is
returned unchanged. -/
theorem C4_self_vote_rejected_witness :
    voteAnswer dbV 2 20 .up 7 = (dbV, false) :=
  C4_self_vote_rejected dbV 2 20 .up 7 ansB (by decide) (by decide)

/-- C9: subscribing twice succeeds both times, the second call is a no-op
on the store, and exactly one Subscription record for the pair exists
after the first call (hence also after the duplicate, whose timestamp is
never written). -/
theorem C9_subscribe_idempotent (db : DB) (U Q t1 t2 : Nat)
    (hn : (db.subscriptions.map (fun s => (s.user_id, s.question_id))).Nodup) :
    (subscribeToQuestion db U Q t1).2 = true ∧
    (subscribeToQuestion (subscribeToQuestion db U Q t1).1 U Q t2).2 = true ∧
    (subscribeToQuestion (subscribeToQuestion db U Q t1).1 U Q t2).1 =
      (subscribeToQuestion db U Q t1).1 ∧
    ((subscribeToQuestion db U Q t1).1.subscriptions.countP
      (fun s => s.user_id == U && s.question_id == Q)) = 1 := by
  have hi := subscribeToQuestion_isSubscribed db U Q t1
  unfold isSubscribed at hi
  refine ⟨subscribeToQuestion_snd db U Q t1, subscribeToQuestion_snd _ U Q t2,
    ?_, ?_⟩
  · rw [subscribeToQuestion_of_isSome _ U Q t2 hi]
  · by_cases h : (db.subscriptions.find?
        (fun s => s.user_id == U && s.question_id == Q)).isSome = true
    · rw [subscribeToQuestion_of_isSome db U Q t1 h]
      have hc := countP_key_nodup
        (fun s : Subscription => (s.user_id, s.question_id)) (U, Q)
        db.subscriptions hn
      rw [subPred_align] at hc
      rw [hc, if_pos h]
    · rw [subscribeToQuestion_of_isNone db U Q t1 h]
      have h0 : db.subscriptions.countP
          (fun s => s.user_id == U && s.question_id == Q) = 0 := by
        apply List.countP_eq_zero.mpr
        intro s hs
        have := List.find?_eq_none.mp
          (Option.not_isSome_iff_eq_none.mp h) s hs
        simpa using this
      simp [List.countP_append, h0]

/-- C9 witness: carol subscribes twice to question 10 in a store with no
subscriptions. -/
theorem C9_subscribe_idempotent_witness :
    (subscribeToQuestion dbV 3 10 5).2 = true ∧
    (subscribeToQuestion (subscribeToQuestion dbV 3 10 5).1 3 10 6).2 = true ∧
    (subscribeToQuestion (subscribeToQuestion dbV 3 10 5).1 3 10 6).1 =
      (subscribeToQuestion dbV 3 10 5).1 ∧
    ((subscribeToQuestion dbV 3 10 5).1.subscriptions.countP
      (fun s => s.user_id == 3 && s.question_id == 10)) = 1 :=
  C9_subscribe_idempotent dbV 3 10 5 6 (by decide)

/-- C3 counterexample: carol holds an up vote on bob's answer whose
counter reads 1; clearing the vote deletes the record but the counter
still reads 1, not the 0 the claim predicts. -/
theorem C3_counterexample_clear_keeps_count :
    getUserVote dbV3 3 20 = some .up ∧
    (voteNoneAction dbV3 3 20).1.votes = [] ∧
    ((getAnswerWithVotes (voteNoneAction dbV3 3 20).1 20).map
      (fun a => a.votes)) = some 1 ∧
    ¬ ((getAnswerWithVotes (voteNoneAction dbV3 3 20).1 20).map
      (fun a => a.votes)) = some 0 := by
  decide

/-- C3 (amended): clearing a vote deletes the Vote record for the pair,
creates no notification, and leaves users, questions, answers — in
particular the answer's aggregate vote count — unchanged; the original
vote's contribution is not reversed.  Clearing when no vote exists is a
no-op success. -/
theorem C3_clear_vote (db : DB) (U aid : Nat)
    (hn : (db.votes.map (fun v => (v.user_id, v.answer_id))).Nodup) :
    (voteNoneAction db U aid).1.answers = db.answers ∧
    (voteNoneAction db U aid).1.notifications = db.notifications ∧
    (voteNoneAction db U aid).1.users = db.users ∧
    ((voteNoneAction db U aid).1.votes.countP
      (fun v => v.user_id == U && v.answer_id == aid)) = 0 ∧
    (getUserVote db U aid = none → (voteNoneAction db U aid).1 = db) ∧
    getAnswerWithVotes (voteNoneAction db U aid).1 aid =
      getAnswerWithVotes db aid := by
  refine ⟨rfl, rfl, rfl, ?_, ?_, rfl⟩
  · show (deleteFirst (fun v => v.user_id == U && v.answer_id == aid)
      db.votes).countP _ = 0
    apply countP_deleteFirst_eq_zero
    have hc := countP_key_nodup (fun v : Vote => (v.user_id, v.answer_id))
      (U, aid) db.votes hn
    rw [votePred_align] at hc
    rw [hc]
    split <;> simp
  · intro h
    unfold getUserVote at h
    have h2 : db.votes.find?
        (fun v => v.user_id == U && v.answer_id == aid) = none :=
      Option.map_eq_none.mp h
    have h3 : ∀ v ∈ db.votes,
        (fun v : Vote => v.user_id == U && v.answer_id == aid) v = false := by
      intro v hv
      simpa using List.find?_eq_none.mp h2 v hv
    show ({ db with votes := deleteFirst _ db.votes } : DB) = db
    rw [deleteFirst_of_forall_neg _ db.votes h3]

/-- C3 witness: clearing in a store where carol holds no vote is a no-op
and a conflict-free store keeps zero records for the pair. -/
theorem C3_clear_vote_witness :
    (voteNoneAction dbV 3 20).1.answers = dbV.answers ∧
    (voteNoneAction dbV 3 20).1.notifications = dbV.notifications ∧
    (voteNoneAction dbV 3 20).1.users = dbV.users ∧
    ((voteNoneAction dbV 3 20).1.votes.countP
      (fun v => v.user_id == 3 && v.answer_id == 20)) = 0 ∧
    (getUserVote dbV 3 20 = none → (voteNoneAction dbV 3 20).1 = dbV) ∧
    getAnswerWithVotes (voteNoneAction dbV 3 20).1 20 =
      getAnswerWithVotes dbV 20 :=
  C3_clear_vote dbV 3 20 (by decide)

/-- C8 counterexample: question 11 is already approved, yet the reject
handler deletes it and reports success instead of the NotFound the claim
predicts for a non-pending question. -/
theorem C8_counterexample_reject_approved :
    (getQuestion dbR 11).map (fun q => q.approved) = some true ∧
    (rejectAction dbR 9 9 11).2 = .ok ∧
    (rejectAction dbR 9 9 11).1.questions = [] := by
  decide

/-- C8 (amended): rejecting a missing question fails with NotFound and
changes nothing; but rejection is not restricted to pending questions:
any existing question, an already approved one included, is rejected —
deleted permanently, with the author told through a direct transport
message (no Notification record is written). -/
theorem C8_reject_requires_existence_only (db : DB) (adminId qid : Nat)
    (hn : (db.questions.map (fun q => q.id)).Nodup) :
    (getQuestion db qid = none →
      rejectAction db adminId adminId qid = (db, .notFound)) ∧
    (∀ q0, getQuestion db qid = some q0 →
      (rejectAction db adminId adminId qid).2 = .ok ∧
      getQuestion (rejectAction db adminId adminId qid).1 qid = none ∧
      (rejectAction db adminId adminId qid).1.notifications =
        db.notifications) := by
  constructor
  · intro h
    unfold rejectAction
    rw [h]
    simp
  · intro q0 h
    unfold rejectAction
    rw [h]
    simp only [bne_self_eq_false, Bool.false_eq_true, if_false]
    refine ⟨trivial, ?_, trivial⟩
    show (deleteFirst (fun q => q.id == qid) db.questions).find? _ = none
    apply find?_deleteFirst_eq_none
    have hc := countP_key_nodup (fun q : Question => q.id) qid
      db.questions hn
    rw [hc]
    split <;> simp

/-- C8 witness: the approved question 11 exists, so rejection succeeds
and removes it. -/
theorem C8_reject_requires_existence_only_witness :
    (rejectAction dbR 9 9 11).2 = .ok ∧
    getQuestion (rejectAction dbR 9 9 11).1 11 = none ∧
    (rejectAction dbR 9 9 11).1.notifications = dbR.notifications :=
  (C8_reject_requires_existence_only dbR 9 11 (by decide)).2
    qApproved (by decide)

/-- C1 counterexample: in a store with alice's pending question 10, two
approve calls by the admin both succeed — the second is not refused as
AlreadyApproved even though the question was already approved — and
alice's point total is 10 after the second call, not the 5 the claim's
exactly-once bonus predicts. -/
theorem C1_counterexample_double_award :
    (approveAction dbA 9 9 10 41 100).2 = .ok ∧
    ((approveAction dbA 9 9 10 41 100).1.questions.map
      (fun q => q.approved)) = [true] ∧
    (approveAction (approveAction dbA 9 9 10 41 100).1 9 9 10 42 101).2 =
      .ok ∧
    ((getUser (approveAction (approveAction dbA 9 9 10 41 100).1
        9 9 10 42 101).1 1).map (fun u => u.points)) = some 10 ∧
    ¬ ((getUser (approveAction (approveAction dbA 9 9 10 41 100).1
        9 9 10 42 101).1 1).map (fun u => u.points)) = some 5 := by
  decide

/-- C1 (amended): approval carries no idempotency guard: a second approve
call on an already-approved question succeeds again, re-writes the
approved flag and publication reference, and awards the author the fixed
five-point bonus a second time — the bonus is awarded once per approve
call, not once per question. -/
theorem C1_second_approve_reawards (db : DB) (adminId qid m1 m2 t1 t2 : Nat)
    (q : Question) (u : User)
    (hq : getQuestion db qid = some q)
    (hu : getUser db q.user_id = some u) :
    (approveAction db adminId adminId qid m1 t1).2 = .ok ∧
    getQuestion (approveAction db adminId adminId qid m1 t1).1 qid =
      some (approveUpdate m1 q) ∧
    getUser (approveAction db adminId adminId qid m1 t1).1 q.user_id =
      some { u with questions_asked := u.questions_asked + 1,
                    points := u.points + 5 } ∧
    (approveAction (approveAction db adminId adminId qid m1 t1).1 adminId
      adminId qid m2 t2).2 = .ok ∧
    getUser (approveAction (approveAction db adminId adminId qid m1 t1).1
        adminId adminId qid m2 t2).1 q.user_id =
      some { u with questions_asked := u.questions_asked + 1 + 1,
                    points := u.points + 5 + 5 } := by
  have h1 := approveAction_spec db adminId qid m1 t1 q hq
  have hq1 : getQuestion (approveAction db adminId adminId qid m1 t1).1 qid =
      some (approveUpdate m1 q) := by
    rw [h1]
    show (updateFirst (fun x => x.id == qid) (approveUpdate m1)
      db.questions).find? (fun x => x.id == qid) = _
    rw [find?_updateFirst _ _
      (fun a h => by rw [approveUpdate_id]; exact h) db.questions]
    unfold getQuestion at hq
    rw [hq]
    rfl
  have hu1 : getUser (approveAction db adminId adminId qid m1 t1).1 q.user_id =
      some (statUpdate .questions_asked 1 u) := by
    rw [h1]
    show getUser (updateUserStats
      { db with
        questions := updateFirst (fun x => x.id == qid) (approveUpdate m1)
          db.questions }
      q.user_id .questions_asked 1) q.user_id = _
    rw [getUser_updateUserStats, getUser_questions_change, hu]
    rfl
  have h2 := approveAction_spec (approveAction db adminId adminId qid m1 t1).1
    adminId qid m2 t2 (approveUpdate m1 q) hq1
  have hu2 : getUser (approveAction
      (approveAction db adminId adminId qid m1 t1).1
      adminId adminId qid m2 t2).1 q.user_id =
      some (statUpdate .questions_asked 1 (statUpdate .questions_asked 1 u)) := by
    rw [h2]
    show getUser (updateUserStats
      { (approveAction db adminId adminId qid m1 t1).1 with
        questions := updateFirst (fun x => x.id == qid) (approveUpdate m2)
          (approveAction db adminId adminId qid m1 t1).1.questions }
      q.user_id .questions_asked 1) q.user_id = _
    rw [getUser_updateUserStats, getUser_questions_change, hu1]
    rfl
  refine ⟨by rw [h1], hq1, ?_, by rw [h2], ?_⟩
  · rw [hu1, statUpdate_qa_one]
  · rw [hu2]
    simp [statUpdate_qa_one]

/-- C1 witness: the amended behaviour on the concrete store with alice's
pending question. -/
theorem C1_second_approve_reawards_witness :
    (approveAction dbA 9 9 10 41 100).2 = .ok ∧
    getQuestion (approveAction dbA 9 9 10 41 100).1 10 =
      some (approveUpdate 41 qA) ∧
    getUser (approveAction dbA 9 9 10 41 100).1 qA.user_id =
      some { aliceU with questions_asked := aliceU.questions_asked + 1,
                         points := aliceU.points + 5 } ∧
    (approveAction (approveAction dbA 9 9 10 41 100).1 9 9 10 42 101).2 =
      .ok ∧
    getUser (approveAction (approveAction dbA 9 9 10 41 100).1
        9 9 10 42 101).1 qA.user_id =
      some { aliceU with questions_asked := aliceU.questions_asked + 1 + 1,
                         points := aliceU.points + 5 + 5 } :=
  C1_second_approve_reawards dbA 9 10 41 42 100 101 qA aliceU
    (by decide) (by decide)

/-- C5: posting an answer to an existing question auto-subscribes the
answerer; the question author receives exactly one new_answer
notification exactly when different from the answerer, even when also a
subscriber; every other current subscriber receives exactly one
new_answer notification; the answerer receives none; and every
notification written by the operation has type new_answer. -/
theorem C5_fanout (db : DB) (B qid aid now : Nat) (uname text : Str)
    (cmi : Option Nat) (q : Question)
    (hn : (db.subscriptions.map (fun s => (s.user_id, s.question_id))).Nodup)
    (hq : getQuestion db qid = some q)
    (hf : (contentFilter text).allowed = true) :
    (postAnswer db B uname qid text cmi aid now).2 = .posted ∧
    isSubscribed (postAnswer db B uname qid text cmi aid now).1 B qid = true ∧
    ((newNotifs db (postAnswer db B uname qid text cmi aid now).1).countP
      (fun n => n.user_id == q.user_id)) = (if q.user_id = B then 0 else 1) ∧
    (∀ u2, u2 ≠ B → u2 ≠ q.user_id →
      ((newNotifs db (postAnswer db B uname qid text cmi aid now).1).countP (fun n => n.user_id == u2)) =
        (if isSubscribed db u2 qid = true then 1 else 0)) ∧
    ((newNotifs db (postAnswer db B uname qid text cmi aid now).1).countP (fun n => n.user_id == B)) = 0 ∧
    (∀ n ∈ newNotifs db (postAnswer db B uname qid text cmi aid now).1, n.ntype = .new_answer) := by
  have hP := postAnswer_spec db B qid aid now uname text cmi q hq hf
  have hP1 : (postAnswer db B uname qid text cmi aid now).1 =
      (getSubscribers (if q.user_id != B then
        createNotification (subscribeToQuestion (createAnswer db aid qid B uname text cmi now) B qid now).1
          q.user_id .new_answer (newAnswerPayload qid text B) now
      else (subscribeToQuestion (createAnswer db aid qid B uname text cmi now) B qid now).1) qid).foldl
        (notifyStep B q.user_id qid text now) (if q.user_id != B then
        createNotification (subscribeToQuestion (createAnswer db aid qid B uname text cmi now) B qid now).1
          q.user_id .new_answer (newAnswerPayload qid text B) now
      else (subscribeToQuestion (createAnswer db aid qid B uname text cmi now) B qid now).1) := by
    rw [hP]
  have hP2 : (postAnswer db B uname qid text cmi aid now).2 = .posted := by rw [hP]
  have hnotifsDB2 : ((subscribeToQuestion (createAnswer db aid qid B uname text cmi now) B qid now).1).notifications = db.notifications := by
    rw [subscribeToQuestion_notifications, createAnswer_notifications]
  have hsubsDB2 : ((subscribeToQuestion (createAnswer db aid qid B uname text cmi now) B qid now).1).subscriptions = db.subscriptions ∨
      ((subscribeToQuestion (createAnswer db aid qid B uname text cmi now) B qid now).1).subscriptions =
        db.subscriptions ++ [Subscription.mk B qid now] := by
    rcases subscribeToQuestion_subscriptions
        (createAnswer db aid qid B uname text cmi now) B qid now with h | h
    · left; rw [h, createAnswer_subscriptions]
    · right; rw [h, createAnswer_subscriptions]
  have hPsubs : (postAnswer db B uname qid text cmi aid now).1.subscriptions = ((subscribeToQuestion (createAnswer db aid qid B uname text cmi now) B qid now).1).subscriptions := by
    rw [hP1, foldl_notifyStep_subscriptions]
    by_cases hab : (q.user_id != B) = true
    · rw [if_pos hab, createNotification_subscriptions]
    · rw [if_neg hab]
  have hnew : newNotifs db (postAnswer db B uname qid text cmi aid now).1 =
      (if q.user_id != B then
        [Notification.mk q.user_id .new_answer (newAnswerPayload qid text B)
          false now]
      else []) ++
      ((getSubscribers ((subscribeToQuestion (createAnswer db aid qid B uname text cmi now) B qid now).1) qid).filter
        (fun s => s != B && s != q.user_id)).map
        (fun s => Notification.mk s .new_answer (newAnswerPayload qid text B)
          false now) := by
    unfold newNotifs
    rw [hP1, fanout_newNotifs, hnotifsDB2, List.drop_left]
  have hsubcnt : ∀ u2, u2 ≠ B →
      ((getSubscribers ((subscribeToQuestion (createAnswer db aid qid B uname text cmi now) B qid now).1) qid).countP (fun s => s == u2)) =
        (if isSubscribed db u2 qid = true then 1 else 0) := by
    intro u2 hu2B
    rw [countP_getSubscribers]
    rcases hsubsDB2 with h | h
    · rw [h]; exact countP_subscribers_of_nodup db u2 qid hn
    · rw [h, List.countP_append]
      have hBu : ¬ B = u2 := fun hh => hu2B hh.symm
      have hz : List.countP
          (fun s0 => s0.user_id == u2 && s0.question_id == qid)
          [Subscription.mk B qid now] = 0 := by
        simp [List.countP_cons, hBu]
      rw [hz, countP_subscribers_of_nodup db u2 qid hn, Nat.add_zero]
  refine ⟨hP2, ?_, ?_, ?_, ?_, ?_⟩
  · have hsubB := subscribeToQuestion_isSubscribed
      (createAnswer db aid qid B uname text cmi now) B qid now
    unfold isSubscribed at hsubB ⊢
    rw [hPsubs]
    exact hsubB
  · rw [hnew, countP_fanout_list]
    by_cases hab : q.user_id = B
    · rw [if_pos hab]
      simp [hab]
    · rw [if_neg hab]
      simp [hab]
  · intro u2 hu2B hu2a
    rw [hnew, countP_fanout_list,
      if_neg (fun hcon => hu2a hcon.1),
      if_pos ⟨hu2B, hu2a⟩, Nat.zero_add]
    exact hsubcnt u2 hu2B
  · rw [hnew, countP_fanout_list,
      if_neg (fun hcon => hcon.2 hcon.1.symm)]
    simp
  · intro n hmem
    rw [hnew] at hmem
    rcases List.mem_append.mp hmem with h | h
    · by_cases hab : (q.user_id != B) = true
      · rw [if_pos hab] at h
        simp only [List.mem_singleton] at h
        rw [h]
      · rw [if_neg hab] at h
        simp at h
    · rcases List.mem_map.mp h with ⟨s, _, rfl⟩
      rfl

/-- C5 witness: bob answers alice's question 10 in the concrete store
where carol is subscribed; alice gets one notification, carol gets one,
bob gets none. -/
theorem C5_fanout_witness :
    (postAnswer dbC5 2 "bob".toList 10 "good answer".toList (some 77)
      20 100).2 = .posted ∧
    isSubscribed (postAnswer dbC5 2 "bob".toList 10 "good answer".toList
      (some 77) 20 100).1 2 10 = true ∧
    ((newNotifs dbC5 (postAnswer dbC5 2 "bob".toList 10
        "good answer".toList (some 77) 20 100).1).countP
      (fun n => n.user_id == qC5.user_id)) =
      (if qC5.user_id = 2 then 0 else 1) ∧
    ((newNotifs dbC5 (postAnswer dbC5 2 "bob".toList 10
        "good answer".toList (some 77) 20 100).1).countP
      (fun n => n.user_id == 3)) =
      (if isSubscribed dbC5 3 10 = true then 1 else 0) ∧
    ((newNotifs dbC5 (postAnswer dbC5 2 "bob".toList 10
        "good answer".toList (some 77) 20 100).1).countP
      (fun n => n.user_id == 2)) = 0 := by
  have h := C5_fanout dbC5 2 10 20 100 "bob".toList "good answer".toList
    (some 77) qC5 (by decide) (by decide) (by decide)
  exact ⟨h.1, h.2.1, h.2.2.1, h.2.2.2.1 3 (by decide) (by decide),
    h.2.2.2.2.1⟩

/-- C2 (amended): casting up then down on the same pair by a non-author
leaves exactly one Vote record for the pair, with sign down, but the
second cast moves the answer's aggregate count by −1 relative to its
value after the up vote: only the new vote's signed value is written to
the counter; the old up vote's +1 contribution is not reversed when its
record is deleted. -/
theorem C2_up_then_down (db : DB) (U aid t1 t2 : Nat) (ans : Answer)
    (hn : (db.votes.map (fun v => (v.user_id, v.answer_id))).Nodup)
    (ha : getAnswerWithVotes db aid = some ans)
    (hne : ans.user_id ≠ U) :
    (voteAnswer db U aid .up t1).2 = true ∧
    (voteAnswer (voteAnswer db U aid .up t1).1 U aid .down t2).2 = true ∧
    ((voteAnswer (voteAnswer db U aid .up t1).1 U aid .down t2).1.votes.countP
      (fun v => v.user_id == U && v.answer_id == aid)) = 1 ∧
    (∀ v ∈ (voteAnswer (voteAnswer db U aid .up t1).1 U aid .down t2).1.votes,
      v.user_id = U → v.answer_id = aid → v.vote_type = .down) ∧
    getAnswerWithVotes (voteAnswer db U aid .up t1).1 aid =
      some { ans with votes := ans.votes + 1 } ∧
    getAnswerWithVotes
        (voteAnswer (voteAnswer db U aid .up t1).1 U aid .down t2).1 aid =
      some { ans with votes := ans.votes + 1 + -1 } := by
  have hc := countP_key_nodup (fun v : Vote => (v.user_id, v.answer_id))
    (U, aid) db.votes hn
  rw [votePred_align] at hc
  have hle : db.votes.countP
      (fun v => v.user_id == U && v.answer_id == aid) ≤ 1 := by
    rw [hc]; split <;> simp
  have hV0 : ∀ y ∈ deleteFirst
      (fun v => v.user_id == U && v.answer_id == aid) db.votes,
      (fun v : Vote => v.user_id == U && v.answer_id == aid) y = false := by
    intro y hy
    have := List.countP_eq_zero.mp
      (countP_deleteFirst_eq_zero _ db.votes hle) y hy
    simpa using this
  have hv1 := voteAnswer_success db U aid .up t1 ans ha hne
  have ha2 : getAnswerWithVotes (voteAnswer db U aid .up t1).1 aid =
      some (addVoteValue .up ans) := by
    rw [hv1]
    show (updateFirst (fun a => a.id == aid) (addVoteValue .up)
      db.answers).find? (fun a => a.id == aid) = _
    rw [find?_updateFirst _ _
      (fun a h => by rw [addVoteValue_id]; exact h) db.answers]
    unfold getAnswerWithVotes at ha
    rw [ha]
    rfl
  have hne2 : (addVoteValue .up ans).user_id ≠ U := by
    rw [addVoteValue_user_id]; exact hne
  have hv2 := voteAnswer_success (voteAnswer db U aid .up t1).1 U aid .down t2
    (addVoteValue .up ans) ha2 hne2
  have hXv : (voteAnswer db U aid .up t1).1.votes =
      deleteFirst (fun v => v.user_id == U && v.answer_id == aid) db.votes ++
        [Vote.mk U aid .up t1] := by
    rw [hv1]
  have hdel : deleteFirst (fun v => v.user_id == U && v.answer_id == aid)
      ((voteAnswer db U aid .up t1).1.votes) =
      deleteFirst (fun v => v.user_id == U && v.answer_id == aid) db.votes := by
    rw [hXv]
    exact deleteFirst_append_singleton _ _ (by simp) _ hV0
  have hfinalv :
      (voteAnswer (voteAnswer db U aid .up t1).1 U aid .down t2).1.votes =
      deleteFirst (fun v => v.user_id == U && v.answer_id == aid) db.votes ++
        [Vote.mk U aid .down t2] := by
    rw [hv2]
    show deleteFirst _ ((voteAnswer db U aid .up t1).1.votes) ++ _ = _
    rw [hdel]
  refine ⟨by rw [hv1], by rw [hv2], ?_, ?_, ?_, ?_⟩
  · rw [hfinalv, List.countP_append,
      List.countP_eq_zero.mpr (fun a hamem => by simp [hV0 a hamem])]
    simp
  · intro v hv hvU hvA
    rw [hfinalv] at hv
    rcases List.mem_append.mp hv with h | h
    · exact absurd (hV0 v h) (by simp [hvU, hvA])
    · simp at h; rw [h]
  · rw [ha2]; simp [addVoteValue]
  · have hfin : getAnswerWithVotes
        (voteAnswer (voteAnswer db U aid .up t1).1 U aid .down t2).1 aid =
        some (addVoteValue .down (addVoteValue .up ans)) := by
      rw [hv2]
      show (updateFirst (fun a => a.id == aid) (addVoteValue .down)
        ((voteAnswer db U aid .up t1).1.answers)).find?
          (fun a => a.id == aid) = _
      rw [find?_updateFirst _ _
        (fun a h => by rw [addVoteValue_id]; exact h) _]
      unfold getAnswerWithVotes at ha2
      rw [ha2]
      rfl
    rw [hfin]; simp [addVoteValue]

/-- C2 witness: carol toggles up then down on bob's answer in the
concrete voting store. -/
theorem C2_up_then_down_witness :
    (voteAnswer dbV 3 20 .up 100).2 = true ∧
    (voteAnswer (voteAnswer dbV 3 20 .up 100).1 3 20 .down 101).2 = true ∧
    ((voteAnswer (voteAnswer dbV 3 20 .up 100).1 3 20 .down 101).1.votes.countP
      (fun v => v.user_id == 3 && v.answer_id == 20)) = 1 ∧
    (∀ v ∈ (voteAnswer (voteAnswer dbV 3 20 .up 100).1 3 20 .down 101).1.votes,
      v.user_id = 3 → v.answer_id = 20 → v.vote_type = .down) ∧
    getAnswerWithVotes (voteAnswer dbV 3 20 .up 100).1 20 =
      some { ansB with votes := ansB.votes + 1 } ∧
    getAnswerWithVotes
        (voteAnswer (voteAnswer dbV 3 20 .up 100).1 3 20 .down 101).1 20 =
      some { ansB with votes := ansB.votes + 1 + -1 } :=
  C2_up_then_down dbV 3 20 100 101 ansB (by decide) (by decide) (by decide)

/-- C10: every user starts with zero points and zero counters, and each
modelled store operation preserves the invariant that points equal five
times the sum of questions_asked and answers_given; the only operations
that touch the user record at all are question approval and answer
creation, which award five points together with a one-step counter
increment, while every other operation leaves the users collection
unchanged. -/
theorem C10_points_invariant (db : DB) (h : DBInv db) :
    (∀ uid name t, DBInv (createUser db uid name t)) ∧
    (∀ uid name t, getUser db uid = none →
      getUser (createUser db uid name t) uid =
        some (User.mk uid name 0 0 0 t)) ∧
    (∀ qid m, DBInv (approveQuestion db qid m).1) ∧
    (∀ qid m q u, getQuestion db qid = some q →
      getUser db q.user_id = some u →
      getUser (approveQuestion db qid m).1 q.user_id =
        some { u with questions_asked := u.questions_asked + 1,
                      points := u.points + 5 }) ∧
    (∀ aid qid uid name text cmi t,
      DBInv (createAnswer db aid qid uid name text cmi t)) ∧
    (∀ aid qid uid name text cmi t u, getUser db uid = some u →
      getUser (createAnswer db aid qid uid name text cmi t) uid =
        some { u with answers_given := u.answers_given + 1,
                      points := u.points + 5 }) ∧
    (∀ uid aid vt t, DBInv (voteAnswer db uid aid vt t).1 ∧
      (voteAnswer db uid aid vt t).1.users = db.users) ∧
    (∀ uid aid, DBInv (voteNoneAction db uid aid).1 ∧
      (voteNoneAction db uid aid).1.users = db.users) ∧
    (∀ uid qid t, DBInv (subscribeToQuestion db uid qid t).1 ∧
      (subscribeToQuestion db uid qid t).1.users = db.users) ∧
    (∀ uid qid, DBInv (unsubscribeFromQuestion db uid qid) ∧
      (unsubscribeFromQuestion db uid qid).users = db.users) ∧
    (∀ uid nt p t, DBInv (createNotification db uid nt p t) ∧
      (createNotification db uid nt p t).users = db.users) ∧
    (∀ adminId fromId qid m t,
      DBInv (approveAction db adminId fromId qid m t).1) ∧
    (∀ adminId fromId qid, DBInv (rejectAction db adminId fromId qid).1 ∧
      (rejectAction db adminId fromId qid).1.users = db.users) ∧
    (∀ B uname qid text cmi aid now,
      DBInv (postAnswer db B uname qid text cmi aid now).1) := by
  refine ⟨?_, ?_, ?_, ?_, ?_, ?_, ?_, ?_, ?_, ?_, ?_, ?_, ?_, ?_⟩
  · intro uid name t
    exact DBInv_createUser db uid name t h
  · intro uid name t hnone
    exact createUser_fresh db uid name t hnone
  · intro qid m
    exact DBInv_approveQuestion db qid m h
  · intro qid m q u hq hu
    rw [approveQuestion_spec db qid m q hq]
    show getUser (updateUserStats
      { db with
        questions := updateFirst (fun x => x.id == qid) (approveUpdate m)
          db.questions }
      q.user_id .questions_asked 1) q.user_id = _
    rw [getUser_updateUserStats, getUser_questions_change, hu]
    simp [statUpdate_qa_one]
  · intro aid qid uid name text cmi t
    exact DBInv_createAnswer db aid qid uid name text cmi t h
  · intro aid qid uid name text cmi t u hu
    show getUser (updateUserStats _ uid .answers_given 1) uid = _
    rw [getUser_updateUserStats]
    show (getUser db uid).map _ = _
    rw [hu]
    simp [statUpdate_ag_one]
  · intro uid aid vt t
    constructor
    · unfold voteAnswer DBInv
      split
      · exact h
      · split
        · exact h
        · exact fun u hu => h u hu
    · unfold voteAnswer
      split
      · rfl
      · split <;> rfl
  · intro uid aid
    exact ⟨fun u hu => h u hu, rfl⟩
  · intro uid qid t
    exact ⟨DBInv_of_users_eq _ _ (subscribeToQuestion_users db uid qid t) h,
      subscribeToQuestion_users db uid qid t⟩
  · intro uid qid
    exact ⟨fun u hu => h u hu, rfl⟩
  · intro uid nt p t
    exact ⟨fun u hu => h u hu, rfl⟩
  · intro adminId fromId qid m t
    unfold approveAction DBInv
    split
    · exact h
    · split
      · exact h
      · exact fun u hu => DBInv_approveQuestion db qid m h u hu
  · intro adminId fromId qid
    constructor
    · unfold rejectAction DBInv
      split
      · exact h
      · split
        · exact h
        · exact fun u hu => h u hu
    · unfold rejectAction
      split
      · rfl
      · split <;> rfl
  · intro B uname qid text cmi aid now
    exact DBInv_postAnswer db B qid aid now uname text cmi h

/-- C10 witness: the invariant holds when a fresh user joins the concrete
store, whose single user satisfies the bookkeeping equation. -/
theorem C10_points_invariant_witness :
    DBInv (createUser dbA 4 "dan".toList 9) :=
  (C10_points_invariant dbA (by unfold DBInv UserInv; decide)).1
    4 "dan".toList 9

/-- C2 counterexample: carol casts up then down on bob's answer starting
from counter 0; after the up vote the counter reads 1, and after the down
vote it reads 0 — a move of −1, not the −2 the claim states. -/
theorem C2_counterexample_toggle_moves_one :
    (voteAnswer dbV 3 20 .up 100).2 = true ∧
    ((getAnswerWithVotes (voteAnswer dbV 3 20 .up 100).1 20).map
      (fun a => a.votes)) = some 1 ∧
    (voteAnswer (voteAnswer dbV 3 20 .up 100).1 3 20 .down 101).2 = true ∧
    ((getAnswerWithVotes
        (voteAnswer (voteAnswer dbV 3 20 .up 100).1 3 20 .down 101).1 20).map
      (fun a => a.votes)) = some 0 ∧
    ¬ ((getAnswerWithVotes
        (voteAnswer (voteAnswer dbV 3 20 .up 100).1 3 20 .down 101).1 20).map
      (fun a => a.votes)) = some (-1) := by
  decide

end AskOromia
